import Mathlib

/-!
Verification of `hummingbot/connector/exchange/kucoin/kucoin_in_flight_order.pyx`.

The file defines a shallow embedding of the `KucoinInFlightOrder` record, its
derived predicates (`is_done`, `is_failure`, `is_cancelled`, `is_local`) and
the snapshot-deserialization factory `from_json`, and proves the spec's claims
about them.  Exact decimals are modelled as rationals; snapshot mappings are
association lists from string keys to dynamic values; Python exceptions are
modelled by an error type returned through `Except`.
-/

namespace KucoinOrder

/-- Modelled from the spec: the `OrderType` enum imported from
`hummingbot.core.event.events` (not part of the provided sources); the spec
gives its members as a set including LIMIT and MARKET. -/
inductive OrderType where
  | LIMIT : OrderType
  | MARKET : OrderType
deriving DecidableEq

/-- Modelled from the spec: the `TradeType` enum imported from
`hummingbot.core.event.events` (not part of the provided sources); the spec
gives its members as BUY and SELL. -/
inductive TradeType where
  | BUY : TradeType
  | SELL : TradeType
deriving DecidableEq

/-- The canonical member name of an `OrderType`, as used by Python's
`getattr` lookup on the enum class. -/
def OrderType.name : OrderType → String
  | .LIMIT => "LIMIT"
  | .MARKET => "MARKET"

/-- The canonical member name of a `TradeType`. -/
def TradeType.name : TradeType → String
  | .BUY => "BUY"
  | .SELL => "SELL"

/-- Python `getattr(OrderType, s)`: the enum member named `s`, if any. -/
def OrderType.fromName (s : String) : Option OrderType :=
  if s = "LIMIT" then some .LIMIT
  else if s = "MARKET" then some .MARKET
  else none

/-- Python `getattr(TradeType, s)`: the enum member named `s`, if any. -/
def TradeType.fromName (s : String) : Option TradeType :=
  if s = "BUY" then some .BUY
  else if s = "SELL" then some .SELL
  else none

/-- Dynamic values stored in a snapshot mapping: strings, exact decimals
(modelled as rationals), or Python `None`. -/
inductive JVal where
  | JStr : String → JVal
  | JDec : ℚ → JVal
  | JNone : JVal
deriving DecidableEq

/-- A snapshot mapping (Python dict with string keys), as an association list. -/
abbrev Snapshot := List (String × JVal)

/-- The Python exceptions that can escape this fragment.  `attributeError` is
the InvalidArgument-class error raised by a failing enum lookup;
`invalidOperation` is the ParseError-class error raised by `Decimal` on
malformed numeric text; `keyError` is raised on a missing mapping key. -/
inductive PyErr where
  | keyError : String → PyErr
  | attributeError : String → PyErr
  | invalidOperation : String → PyErr
  | typeError : PyErr
deriving DecidableEq

/-- Whether an error is of the InvalidArgument class (a failed enum lookup). -/
def PyErr.isInvalidArgument : PyErr → Bool
  | .attributeError _ => true
  | _ => false

/-- Whether an error is of the ParseError class (malformed decimal text). -/
def PyErr.isParseError : PyErr → Bool
  | .invalidOperation _ => true
  | _ => false

/-- Numeric value of a list of decimal digit characters (most significant first). -/
def digitsToNat (ds : List Char) : Nat :=
  ds.foldl (fun acc c => acc * 10 + (c.toNat - 48)) 0

/-- Parse the digit body of a decimal literal: `digits`, `digits.digits`,
`digits.` or `.digits`.  Returns the value and the unconsumed suffix. -/
def parseBody (cs : List Char) : Option (ℚ × List Char) :=
  let intPart := cs.takeWhile Char.isDigit
  let rest := cs.dropWhile Char.isDigit
  match rest with
  | '.' :: rest2 =>
    let fracPart := rest2.takeWhile Char.isDigit
    let rest3 := rest2.dropWhile Char.isDigit
    if intPart.isEmpty && fracPart.isEmpty then none
    else some (((digitsToNat intPart * 10 ^ fracPart.length + digitsToNat fracPart : ℚ)) /
                 ((10 : ℚ) ^ fracPart.length), rest3)
  | _ =>
    if intPart.isEmpty then none
    else some ((digitsToNat intPart : ℚ), rest)

/-- Parse an optional exponent suffix `(e|E)(+|-)?digits` followed by end of
input; the empty suffix denotes exponent 0. -/
def parseExpSuffix : List Char → Option Int
  | [] => some 0
  | c :: cs =>
    if c = 'e' || c = 'E' then
      match cs with
      | '+' :: ds =>
        if !ds.isEmpty && ds.all Char.isDigit then some (digitsToNat ds) else none
      | '-' :: ds =>
        if !ds.isEmpty && ds.all Char.isDigit then some (-(digitsToNat ds : Int)) else none
      | ds =>
        if !ds.isEmpty && ds.all Char.isDigit then some (digitsToNat ds) else none
    else none

/-- Python's `Decimal(text)` constructor on a string argument: an exact decimal
value `sign body exponent`, or a parse failure on malformed numeric text. -/
def decimalOfString (s : String) : Option ℚ :=
  let cs := s.toList
  let signed : ℚ × List Char :=
    match cs with
    | '+' :: t => (1, t)
    | '-' :: t => (-1, t)
    | t => (1, t)
  match parseBody signed.2 with
  | none => none
  | some (v, rest) =>
    match parseExpSuffix rest with
    | none => none
    | some e => some (signed.1 * v * (10 : ℚ) ^ e)

/-- Modelled from the spec: the field set of `InFlightOrderBase` (the base
class, not part of the provided sources), per the spec's data-model table:
twelve fields, with `exchange_order_id` optional and the decimal-valued
fields exact decimals. -/
structure KucoinInFlightOrder where
  client_order_id : String
  exchange_order_id : Option String
  trading_pair : String
  order_type : OrderType
  trade_type : TradeType
  price : ℚ
  amount : ℚ
  last_state : String
  executed_amount_base : ℚ
  executed_amount_quote : ℚ
  fee_asset : String
  fee_paid : ℚ
deriving DecidableEq

/-- Modelled from the spec: the base-class constructor stores the eight
construction inputs and starts the cumulative execution fields
(`executed_amount_base`, `executed_amount_quote`, `fee_paid`) at zero with an
empty `fee_asset`; `last_state` is set to the `initial_state` argument.
`KucoinInFlightOrder.__init__` forwards all eight arguments to it unchanged. -/
def KucoinInFlightOrder.init (client_order_id : String)
    (exchange_order_id : Option String) (trading_pair : String)
    (order_type : OrderType) (trade_type : TradeType)
    (price amount : ℚ) (initial_state : String) : KucoinInFlightOrder :=
  { client_order_id := client_order_id
    exchange_order_id := exchange_order_id
    trading_pair := trading_pair
    order_type := order_type
    trade_type := trade_type
    price := price
    amount := amount
    last_state := initial_state
    executed_amount_base := 0
    executed_amount_quote := 0
    fee_asset := ""
    fee_paid := 0 }

/-- Construction with the `initial_state` argument omitted: the `.pyx`
signature defaults it to `"LOCAL"`. -/
def KucoinInFlightOrder.initDefault (client_order_id : String)
    (exchange_order_id : Option String) (trading_pair : String)
    (order_type : OrderType) (trade_type : TradeType)
    (price amount : ℚ) : KucoinInFlightOrder :=
  KucoinInFlightOrder.init client_order_id exchange_order_id trading_pair
    order_type trade_type price amount "LOCAL"

/-- `is_done` property: `self.last_state in {"DONE", "CANCEL"}`. -/
def KucoinInFlightOrder.is_done (o : KucoinInFlightOrder) : Bool :=
  o.last_state == "DONE" || o.last_state == "CANCEL"

/-- `is_failure` property: `self.last_state in {"CANCEL"}`. -/
def KucoinInFlightOrder.is_failure (o : KucoinInFlightOrder) : Bool :=
  o.last_state == "CANCEL"

/-- `is_cancelled` property: `self.last_state in {"CANCEL"}`. -/
def KucoinInFlightOrder.is_cancelled (o : KucoinInFlightOrder) : Bool :=
  o.last_state == "CANCEL"

/-- `is_local` property: `self.last_state in {"LOCAL"}`. -/
def KucoinInFlightOrder.is_local (o : KucoinInFlightOrder) : Bool :=
  o.last_state == "LOCAL"

/-- Python `data[k]` on a dict: the value, or a `KeyError` when absent. -/
def getItem (data : Snapshot) (k : String) : Except PyErr JVal :=
  match data.lookup k with
  | some v => Except.ok v
  | none => Except.error (PyErr.keyError k)

/-- Read a mapping value expected to be a string. -/
def asStr : JVal → Except PyErr String
  | .JStr s => Except.ok s
  | _ => Except.error PyErr.typeError

/-- Read a mapping value expected to be a string or `None`. -/
def asOptStr : JVal → Except PyErr (Option String)
  | .JStr s => Except.ok (some s)
  | .JNone => Except.ok none
  | _ => Except.error PyErr.typeError

/-- Python `getattr(OrderType, v)`: the member named by the string `v`, an
AttributeError (InvalidArgument-class) when no member has that name. -/
def getattrOrderType : JVal → Except PyErr OrderType
  | .JStr s =>
    match OrderType.fromName s with
    | some t => Except.ok t
    | none => Except.error (PyErr.attributeError s)
  | _ => Except.error PyErr.typeError

/-- Python `getattr(TradeType, v)`: the member named by the string `v`, an
AttributeError (InvalidArgument-class) when no member has that name. -/
def getattrTradeType : JVal → Except PyErr TradeType
  | .JStr s =>
    match TradeType.fromName s with
    | some t => Except.ok t
    | none => Except.error (PyErr.attributeError s)
  | _ => Except.error PyErr.typeError

/-- Python `Decimal(v)` on a mapping value: a decimal passes through
unchanged, a string is parsed as exact decimal text and raises an
InvalidOperation (ParseError-class) when malformed. -/
def toDecimal : JVal → Except PyErr ℚ
  | .JDec q => Except.ok q
  | .JStr s =>
    match decimalOfString s with
    | some q => Except.ok q
    | none => Except.error (PyErr.invalidOperation s)
  | .JNone => Except.error PyErr.typeError

/-- `data[k]` read as a string field. -/
def readStr (data : Snapshot) (k : String) : Except PyErr String :=
  match getItem data k with
  | Except.error e => Except.error e
  | Except.ok v => asStr v

/-- `data[k]` read as an optional string field. -/
def readOptStr (data : Snapshot) (k : String) : Except PyErr (Option String) :=
  match getItem data k with
  | Except.error e => Except.error e
  | Except.ok v => asOptStr v

/-- `getattr(OrderType, data[k])`. -/
def readOrderType (data : Snapshot) (k : String) : Except PyErr OrderType :=
  match getItem data k with
  | Except.error e => Except.error e
  | Except.ok v => getattrOrderType v

/-- `getattr(TradeType, data[k])`. -/
def readTradeType (data : Snapshot) (k : String) : Except PyErr TradeType :=
  match getItem data k with
  | Except.error e => Except.error e
  | Except.ok v => getattrTradeType v

/-- `Decimal(data[k])`. -/
def readDec (data : Snapshot) (k : String) : Except PyErr ℚ :=
  match getItem data k with
  | Except.error e => Except.error e
  | Except.ok v => toDecimal v

/-- The `from_json` classmethod: constructs a `KucoinInFlightOrder` from the
snapshot mapping, evaluating the construction arguments in source order
(`client_order_id`, `exchange_order_id`, `trading_pair`, `order_type`,
`trade_type`, `price`, `amount`, `initial_state = data["last_state"]`), then
overwriting `executed_amount_base`, `executed_amount_quote`, `fee_asset`,
`fee_paid` and `last_state` from the snapshot.  Any raised exception
propagates and no record is returned. -/
def from_json (data : Snapshot) : Except PyErr KucoinInFlightOrder :=
  match readStr data "client_order_id" with
  | Except.error e => Except.error e
  | Except.ok coid =>
  match readOptStr data "exchange_order_id" with
  | Except.error e => Except.error e
  | Except.ok eoid =>
  match readStr data "trading_pair" with
  | Except.error e => Except.error e
  | Except.ok tp =>
  match readOrderType data "order_type" with
  | Except.error e => Except.error e
  | Except.ok ot =>
  match readTradeType data "trade_type" with
  | Except.error e => Except.error e
  | Except.ok tt =>
  match readDec data "price" with
  | Except.error e => Except.error e
  | Except.ok pr =>
  match readDec data "amount" with
  | Except.error e => Except.error e
  | Except.ok am =>
  match readStr data "last_state" with
  | Except.error e => Except.error e
  | Except.ok ls =>
  let retval := KucoinInFlightOrder.init coid eoid tp ot tt pr am ls
  match readDec data "executed_amount_base" with
  | Except.error e => Except.error e
  | Except.ok eab =>
  match readDec data "executed_amount_quote" with
  | Except.error e => Except.error e
  | Except.ok eaq =>
  match readStr data "fee_asset" with
  | Except.error e => Except.error e
  | Except.ok fa =>
  match readDec data "fee_paid" with
  | Except.error e => Except.error e
  | Except.ok fp =>
  match readStr data "last_state" with
  | Except.error e => Except.error e
  | Except.ok ls2 =>
  Except.ok { retval with
    executed_amount_base := eab
    executed_amount_quote := eaq
    fee_asset := fa
    fee_paid := fp
    last_state := ls2 }

/-- The JVal for an optional string: Python `None` or the string itself. -/
def jvalOfOptStr : Option String → JVal
  | some s => JVal.JStr s
  | none => JVal.JNone

/-- A snapshot mapping holding the documented twelve keys in documented
order, with arbitrary values. -/
def mkSnapshot (coid eoid tp ot tt pr am ls eab eaq fa fp : JVal) : Snapshot :=
  [("client_order_id", coid),
   ("exchange_order_id", eoid),
   ("trading_pair", tp),
   ("order_type", ot),
   ("trade_type", tt),
   ("price", pr),
   ("amount", am),
   ("last_state", ls),
   ("executed_amount_base", eab),
   ("executed_amount_quote", eaq),
   ("fee_asset", fa),
   ("fee_paid", fp)]

/-- Modelled from the spec: no inverse serialization is shown in the source;
callers build the snapshot mapping themselves, mirroring the documented field
set, with enum fields stored by member name and decimal fields stored as
exact decimals. -/
def to_snapshot (o : KucoinInFlightOrder) : Snapshot :=
  mkSnapshot (JVal.JStr o.client_order_id) (jvalOfOptStr o.exchange_order_id)
    (JVal.JStr o.trading_pair) (JVal.JStr o.order_type.name)
    (JVal.JStr o.trade_type.name) (JVal.JDec o.price) (JVal.JDec o.amount)
    (JVal.JStr o.last_state) (JVal.JDec o.executed_amount_base)
    (JVal.JDec o.executed_amount_quote) (JVal.JStr o.fee_asset)
    (JVal.JDec o.fee_paid)

/-- The documented twelve snapshot keys, in the order `from_json` reads them. -/
def snapshotKeys : List String :=
  ["client_order_id", "exchange_order_id", "trading_pair", "order_type",
   "trade_type", "price", "amount", "last_state", "executed_amount_base",
   "executed_amount_quote", "fee_asset", "fee_paid"]

/-- All twelve fields of a returned record are populated from the snapshot:
each documented key is present and its (converted) value is the record's
field value. -/
def populatedFrom (data : Snapshot) (r : KucoinInFlightOrder) : Prop :=
  readStr data "client_order_id" = Except.ok r.client_order_id ∧
  readOptStr data "exchange_order_id" = Except.ok r.exchange_order_id ∧
  readStr data "trading_pair" = Except.ok r.trading_pair ∧
  readOrderType data "order_type" = Except.ok r.order_type ∧
  readTradeType data "trade_type" = Except.ok r.trade_type ∧
  readDec data "price" = Except.ok r.price ∧
  readDec data "amount" = Except.ok r.amount ∧
  readStr data "last_state" = Except.ok r.last_state ∧
  readDec data "executed_amount_base" = Except.ok r.executed_amount_base ∧
  readDec data "executed_amount_quote" = Except.ok r.executed_amount_quote ∧
  readStr data "fee_asset" = Except.ok r.fee_asset ∧
  readDec data "fee_paid" = Except.ok r.fee_paid

theorem orderTypeFromNameOfName (t : OrderType) : OrderType.fromName t.name = some t := by
  cases t <;> rfl

theorem tradeTypeFromNameOfName (t : TradeType) : TradeType.fromName t.name = some t := by
  cases t <;> rfl

/-- C2: for every record, `is_done` is true exactly when `last_state` is an
element of {"DONE", "CANCEL"}, hence false for every other status string. -/
theorem is_done_iff_terminal (o : KucoinInFlightOrder) :
    o.is_done = true ↔ (o.last_state = "DONE" ∨ o.last_state = "CANCEL") := by
  simp [KucoinInFlightOrder.is_done]

/-- C3: for every record, `is_failure` and `is_cancelled` return the same
boolean, and both are true exactly when `last_state` equals "CANCEL". -/
theorem is_failure_eq_is_cancelled (o : KucoinInFlightOrder) :
    o.is_failure = o.is_cancelled ∧
      (o.is_failure = true ↔ o.last_state = "CANCEL") ∧
      (o.is_cancelled = true ↔ o.last_state = "CANCEL") := by
  refine ⟨rfl, ?_, ?_⟩ <;>
    simp [KucoinInFlightOrder.is_failure, KucoinInFlightOrder.is_cancelled]

/-- C7: a record constructed with no `initial_state` argument has
`last_state = "LOCAL"`, so `is_local` is true and `is_done` is false for it;
and in general `is_local` holds exactly when `last_state = "LOCAL"`. -/
theorem initDefault_is_local (coid : String) (eoid : Option String)
    (tp : String) (ot : OrderType) (tt : TradeType) (pr am : ℚ) :
    (KucoinInFlightOrder.initDefault coid eoid tp ot tt pr am).last_state = "LOCAL" ∧
    (KucoinInFlightOrder.initDefault coid eoid tp ot tt pr am).is_local = true ∧
    (KucoinInFlightOrder.initDefault coid eoid tp ot tt pr am).is_done = false ∧
    ∀ o : KucoinInFlightOrder, (o.is_local = true ↔ o.last_state = "LOCAL") := by
  refine ⟨rfl, rfl, rfl, fun o => ?_⟩
  simp [KucoinInFlightOrder.is_local]

/-- C1: round-trip — serializing any record's current field values to a
mapping with the documented key set and reconstructing through `from_json`
returns a record with identical field values. -/
theorem from_json_to_snapshot_roundtrip (r : KucoinInFlightOrder) :
    from_json (to_snapshot r) = Except.ok r := by
  obtain ⟨coid, eoid, tp, ot, tt, pr, am, ls, eab, eaq, fa, fp⟩ := r
  cases eoid <;> cases ot <;> cases tt <;> rfl

theorem from_json_ok_spec (data : Snapshot) (r : KucoinInFlightOrder)
    (h : from_json data = Except.ok r) : populatedFrom data r := by
  unfold from_json at h
  rcases hc : readStr data "client_order_id" with e | coid <;> rw [hc] at h
  · exact absurd h (by simp)
  rcases he : readOptStr data "exchange_order_id" with e | eoid <;> rw [he] at h
  · exact absurd h (by simp)
  rcases htp : readStr data "trading_pair" with e | tp <;> rw [htp] at h
  · exact absurd h (by simp)
  rcases hot : readOrderType data "order_type" with e | ot <;> rw [hot] at h
  · exact absurd h (by simp)
  rcases htt : readTradeType data "trade_type" with e | tt <;> rw [htt] at h
  · exact absurd h (by simp)
  rcases hpr : readDec data "price" with e | pr <;> rw [hpr] at h
  · exact absurd h (by simp)
  rcases ham : readDec data "amount" with e | am <;> rw [ham] at h
  · exact absurd h (by simp)
  rcases hls : readStr data "last_state" with e | ls <;> rw [hls] at h
  · exact absurd h (by simp)
  rcases heab : readDec data "executed_amount_base" with e | eab <;> rw [heab] at h
  · exact absurd h (by simp)
  rcases heaq : readDec data "executed_amount_quote" with e | eaq <;> rw [heaq] at h
  · exact absurd h (by simp)
  rcases hfa : readStr data "fee_asset" with e | fa <;> rw [hfa] at h
  · exact absurd h (by simp)
  rcases hfp : readDec data "fee_paid" with e | fp <;> rw [hfp] at h
  · exact absurd h (by simp)
  injection h with h
  subst h
  unfold populatedFrom
  exact ⟨hc, he, htp, hot, htt, hpr, ham, hls, heab, heaq, hfa, hfp⟩

theorem asOptStr_jvalOfOptStr (x : Option String) :
    asOptStr (jvalOfOptStr x) = Except.ok x := by
  cases x <;> rfl

set_option maxHeartbeats 2000000 in
theorem from_json_mkSnapshot (v1 v2 v3 v4 v5 v6 v7 v8 v9 v10 v11 v12 : JVal) :
    from_json (mkSnapshot v1 v2 v3 v4 v5 v6 v7 v8 v9 v10 v11 v12) =
    (match asStr v1 with
    | Except.error e => Except.error e
    | Except.ok coid =>
    match asOptStr v2 with
    | Except.error e => Except.error e
    | Except.ok eoid =>
    match asStr v3 with
    | Except.error e => Except.error e
    | Except.ok tp =>
    match getattrOrderType v4 with
    | Except.error e => Except.error e
    | Except.ok ot =>
    match getattrTradeType v5 with
    | Except.error e => Except.error e
    | Except.ok tt =>
    match toDecimal v6 with
    | Except.error e => Except.error e
    | Except.ok pr =>
    match toDecimal v7 with
    | Except.error e => Except.error e
    | Except.ok am =>
    match asStr v8 with
    | Except.error e => Except.error e
    | Except.ok _ =>
    match toDecimal v9 with
    | Except.error e => Except.error e
    | Except.ok eab =>
    match toDecimal v10 with
    | Except.error e => Except.error e
    | Except.ok eaq =>
    match asStr v11 with
    | Except.error e => Except.error e
    | Except.ok fa =>
    match toDecimal v12 with
    | Except.error e => Except.error e
    | Except.ok fp =>
    match asStr v8 with
    | Except.error e => Except.error e
    | Except.ok ls2 =>
    Except.ok ⟨coid, eoid, tp, ot, tt, pr, am, ls2, eab, eaq, fa, fp⟩) := by
  rfl

/-- C4: whenever `from_json` returns a record, the record's `last_state`
equals the snapshot's `last_state` field: construction uses the snapshot's
`last_state` as `initial_state` and the post-construction overwrite of
`last_state` is idempotent with it. -/
theorem from_json_last_state_eq (data : Snapshot) (r : KucoinInFlightOrder)
    (h : from_json data = Except.ok r) :
    readStr data "last_state" = Except.ok r.last_state :=
  (from_json_ok_spec data r h).2.2.2.2.2.2.2.1

/-- A concrete snapshot used to witness the success path of `from_json`. -/
def sampleData : Snapshot :=
  mkSnapshot (JVal.JStr "C1") JVal.JNone (JVal.JStr "ETH-USDT")
    (JVal.JStr "LIMIT") (JVal.JStr "BUY") (JVal.JDec 10) (JVal.JDec 2)
    (JVal.JStr "partial-filled") (JVal.JDec (3 / 2)) (JVal.JDec 15)
    (JVal.JStr "USDT") (JVal.JDec (1 / 100))

/-- The record `from_json` returns on `sampleData`. -/
def sampleRec : KucoinInFlightOrder :=
  ⟨"C1", none, "ETH-USDT", OrderType.LIMIT, TradeType.BUY, 10, 2,
    "partial-filled", 3 / 2, 15, "USDT", 1 / 100⟩

theorem from_json_last_state_eq_witness :
    readStr sampleData "last_state" = Except.ok sampleRec.last_state :=
  from_json_last_state_eq sampleData sampleRec rfl

/-- C8: `from_json` is atomic — on every input mapping it either fails with
an error or returns a record all twelve of whose fields are populated from
the snapshot; it never returns a partially populated record. -/
theorem from_json_atomic (data : Snapshot) :
    (∃ e, from_json data = Except.error e) ∨
    (∃ r, from_json data = Except.ok r ∧ populatedFrom data r) := by
  cases h : from_json data with
  | error e => exact Or.inl ⟨e, rfl⟩
  | ok r => exact Or.inr ⟨r, rfl, from_json_ok_spec data r h⟩

theorem getattrOrderType_unknown (s : String) (h : OrderType.fromName s = none) :
    getattrOrderType (JVal.JStr s) = Except.error (PyErr.attributeError s) := by
  simp only [getattrOrderType]
  rw [h]

theorem getattrTradeType_unknown (s : String) (h : TradeType.fromName s = none) :
    getattrTradeType (JVal.JStr s) = Except.error (PyErr.attributeError s) := by
  simp only [getattrTradeType]
  rw [h]

theorem getattrOrderType_name (t : OrderType) :
    getattrOrderType (JVal.JStr t.name) = Except.ok t := by
  simp only [getattrOrderType]
  rw [orderTypeFromNameOfName]

theorem getattrTradeType_name (t : TradeType) :
    getattrTradeType (JVal.JStr t.name) = Except.ok t := by
  simp only [getattrTradeType]
  rw [tradeTypeFromNameOfName]

theorem toDecimal_unparseable (s : String) (h : decimalOfString s = none) :
    toDecimal (JVal.JStr s) = Except.error (PyErr.invalidOperation s) := by
  simp only [toDecimal]
  rw [h]

/-- C5: a snapshot whose `order_type` or `trade_type` string names no enum
member makes `from_json` fail with the InvalidArgument-class error
(AttributeError carrying the unknown name), and `from_json` never returns a
record from any mapping whose `order_type` or `trade_type` holds such a
string. -/
theorem from_json_unknown_enum (coid tp ls fa s t : String)
    (eoid : Option String) (ot : OrderType) (ttv : JVal)
    (pr am eab eaq fp : ℚ)
    (hs : OrderType.fromName s = none) (ht : TradeType.fromName t = none) :
    from_json (mkSnapshot (JVal.JStr coid) (jvalOfOptStr eoid) (JVal.JStr tp)
        (JVal.JStr s) ttv (JVal.JDec pr) (JVal.JDec am) (JVal.JStr ls)
        (JVal.JDec eab) (JVal.JDec eaq) (JVal.JStr fa) (JVal.JDec fp)) =
      Except.error (PyErr.attributeError s) ∧
    from_json (mkSnapshot (JVal.JStr coid) (jvalOfOptStr eoid) (JVal.JStr tp)
        (JVal.JStr ot.name) (JVal.JStr t) (JVal.JDec pr) (JVal.JDec am)
        (JVal.JStr ls) (JVal.JDec eab) (JVal.JDec eaq) (JVal.JStr fa)
        (JVal.JDec fp)) = Except.error (PyErr.attributeError t) ∧
    (PyErr.attributeError s).isInvalidArgument = true ∧
    (∀ data : Snapshot, data.lookup "order_type" = some (JVal.JStr s) →
      ∀ r, from_json data ≠ Except.ok r) ∧
    (∀ data : Snapshot, data.lookup "trade_type" = some (JVal.JStr t) →
      ∀ r, from_json data ≠ Except.ok r) := by
  refine ⟨?_, ?_, rfl, ?_, ?_⟩
  · cases eoid <;>
      (rw [from_json_mkSnapshot, getattrOrderType_unknown s hs]; rfl)
  · cases eoid <;>
      (rw [from_json_mkSnapshot, getattrOrderType_name,
           getattrTradeType_unknown t ht]; rfl)
  · intro data hlook r hok
    have hp := (from_json_ok_spec data r hok).2.2.2.1
    rw [readOrderType, getItem, hlook] at hp
    have hp2 : getattrOrderType (JVal.JStr s) = Except.ok r.order_type := hp
    rw [getattrOrderType_unknown s hs] at hp2
    exact Except.noConfusion hp2
  · intro data hlook r hok
    have hp := (from_json_ok_spec data r hok).2.2.2.2.1
    rw [readTradeType, getItem, hlook] at hp
    have hp2 : getattrTradeType (JVal.JStr t) = Except.ok r.trade_type := hp
    rw [getattrTradeType_unknown t ht] at hp2
    exact Except.noConfusion hp2

theorem from_json_unknown_enum_witness :
    from_json (mkSnapshot (JVal.JStr "C1") (jvalOfOptStr none)
        (JVal.JStr "ETH-USDT") (JVal.JStr "NOT_A_TYPE") (JVal.JStr "BUY")
        (JVal.JDec 10) (JVal.JDec 2) (JVal.JStr "LOCAL") (JVal.JDec 0)
        (JVal.JDec 0) (JVal.JStr "USDT") (JVal.JDec 0)) =
      Except.error (PyErr.attributeError "NOT_A_TYPE") :=
  (from_json_unknown_enum "C1" "ETH-USDT" "LOCAL" "USDT" "NOT_A_TYPE"
    "NOT_A_SIDE" none OrderType.LIMIT (JVal.JStr "BUY") 10 2 0 0 0
    rfl rfl).1

/-- C6: a snapshot whose `price`, `amount`, `executed_amount_base`,
`executed_amount_quote` or `fee_paid` field holds text that is not parseable
as an exact decimal makes `from_json` fail with the ParseError-class error
(InvalidOperation carrying the malformed text) and return no record. -/
theorem from_json_bad_decimal (coid tp ls fa bad : String)
    (eoid : Option String) (ot : OrderType) (tt : TradeType)
    (pr am eab eaq fp : ℚ) (hbad : decimalOfString bad = none) :
    from_json (mkSnapshot (JVal.JStr coid) (jvalOfOptStr eoid) (JVal.JStr tp)
        (JVal.JStr ot.name) (JVal.JStr tt.name) (JVal.JStr bad) (JVal.JDec am)
        (JVal.JStr ls) (JVal.JDec eab) (JVal.JDec eaq) (JVal.JStr fa)
        (JVal.JDec fp)) = Except.error (PyErr.invalidOperation bad) ∧
    from_json (mkSnapshot (JVal.JStr coid) (jvalOfOptStr eoid) (JVal.JStr tp)
        (JVal.JStr ot.name) (JVal.JStr tt.name) (JVal.JDec pr) (JVal.JStr bad)
        (JVal.JStr ls) (JVal.JDec eab) (JVal.JDec eaq) (JVal.JStr fa)
        (JVal.JDec fp)) = Except.error (PyErr.invalidOperation bad) ∧
    from_json (mkSnapshot (JVal.JStr coid) (jvalOfOptStr eoid) (JVal.JStr tp)
        (JVal.JStr ot.name) (JVal.JStr tt.name) (JVal.JDec pr) (JVal.JDec am)
        (JVal.JStr ls) (JVal.JStr bad) (JVal.JDec eaq) (JVal.JStr fa)
        (JVal.JDec fp)) = Except.error (PyErr.invalidOperation bad) ∧
    from_json (mkSnapshot (JVal.JStr coid) (jvalOfOptStr eoid) (JVal.JStr tp)
        (JVal.JStr ot.name) (JVal.JStr tt.name) (JVal.JDec pr) (JVal.JDec am)
        (JVal.JStr ls) (JVal.JDec eab) (JVal.JStr bad) (JVal.JStr fa)
        (JVal.JDec fp)) = Except.error (PyErr.invalidOperation bad) ∧
    from_json (mkSnapshot (JVal.JStr coid) (jvalOfOptStr eoid) (JVal.JStr tp)
        (JVal.JStr ot.name) (JVal.JStr tt.name) (JVal.JDec pr) (JVal.JDec am)
        (JVal.JStr ls) (JVal.JDec eab) (JVal.JDec eaq) (JVal.JStr fa)
        (JVal.JStr bad)) = Except.error (PyErr.invalidOperation bad) ∧
    (PyErr.invalidOperation bad).isParseError = true := by
  refine ⟨?_, ?_, ?_, ?_, ?_, rfl⟩ <;>
    cases eoid <;>
      (rw [from_json_mkSnapshot, getattrOrderType_name, getattrTradeType_name,
           toDecimal_unparseable bad hbad]; rfl)

theorem from_json_bad_decimal_witness :
    from_json (mkSnapshot (JVal.JStr "C1") (jvalOfOptStr none)
        (JVal.JStr "ETH-USDT") (JVal.JStr OrderType.LIMIT.name)
        (JVal.JStr TradeType.BUY.name) (JVal.JStr "abc") (JVal.JDec 2)
        (JVal.JStr "LOCAL") (JVal.JDec 0) (JVal.JDec 0) (JVal.JStr "USDT")
        (JVal.JDec 0)) = Except.error (PyErr.invalidOperation "abc") :=
  (from_json_bad_decimal "C1" "ETH-USDT" "LOCAL" "USDT" "abc" none
    OrderType.LIMIT TradeType.BUY 10 2 0 0 0 rfl).1

set_option maxHeartbeats 1600000 in
/-- C9: a snapshot from which any one of the twelve documented keys has been
removed makes `from_json` fail with a KeyError naming the missing key; no
default value is substituted and no record is returned. -/
theorem from_json_missing_key (coid tp ls fa : String) (eoid : Option String)
    (ot : OrderType) (tt : TradeType) (pr am eab eaq fp : ℚ)
    (k : String) (hk : k ∈ snapshotKeys) :
    from_json ((mkSnapshot (JVal.JStr coid) (jvalOfOptStr eoid) (JVal.JStr tp)
        (JVal.JStr ot.name) (JVal.JStr tt.name) (JVal.JDec pr) (JVal.JDec am)
        (JVal.JStr ls) (JVal.JDec eab) (JVal.JDec eaq) (JVal.JStr fa)
        (JVal.JDec fp)).filter (fun p => p.1 != k)) =
      Except.error (PyErr.keyError k) := by
  simp only [snapshotKeys, List.mem_cons, List.not_mem_nil, or_false] at hk
  rcases hk with rfl | rfl | rfl | rfl | rfl | rfl | rfl | rfl | rfl | rfl | rfl | rfl <;>
    cases eoid <;> cases ot <;> cases tt <;> rfl

theorem from_json_missing_key_witness :
    from_json ((mkSnapshot (JVal.JStr "C1") (jvalOfOptStr none)
        (JVal.JStr "ETH-USDT") (JVal.JStr OrderType.LIMIT.name)
        (JVal.JStr TradeType.BUY.name) (JVal.JDec 10) (JVal.JDec 2)
        (JVal.JStr "LOCAL") (JVal.JDec 0) (JVal.JDec 0) (JVal.JStr "USDT")
        (JVal.JDec 0)).filter (fun p => p.1 != "price")) =
      Except.error (PyErr.keyError "price") :=
  from_json_missing_key "C1" "ETH-USDT" "LOCAL" "USDT" none OrderType.LIMIT
    TradeType.BUY 10 2 0 0 0 "price" (by simp [snapshotKeys])

/-- C10: no vocabulary check on `last_state` — constructing with any string
`s` as `initial_state` succeeds and stores `s`, restoring a snapshot whose
`last_state` is `s` (other fields well-formed) succeeds, and the four
predicates stay defined, each true only on its matched literals. -/
theorem no_last_state_validation (coid tp fa : String) (eoid : Option String)
    (ot : OrderType) (tt : TradeType) (pr am eab eaq fp : ℚ) (s : String) :
    (KucoinInFlightOrder.init coid eoid tp ot tt pr am s).last_state = s ∧
    (∃ r, from_json (mkSnapshot (JVal.JStr coid) (jvalOfOptStr eoid)
        (JVal.JStr tp) (JVal.JStr ot.name) (JVal.JStr tt.name) (JVal.JDec pr)
        (JVal.JDec am) (JVal.JStr s) (JVal.JDec eab) (JVal.JDec eaq)
        (JVal.JStr fa) (JVal.JDec fp)) = Except.ok r ∧ r.last_state = s) ∧
    (KucoinInFlightOrder.init coid eoid tp ot tt pr am s).is_done =
      (s == "DONE" || s == "CANCEL") ∧
    (KucoinInFlightOrder.init coid eoid tp ot tt pr am s).is_failure =
      (s == "CANCEL") ∧
    (KucoinInFlightOrder.init coid eoid tp ot tt pr am s).is_cancelled =
      (s == "CANCEL") ∧
    (KucoinInFlightOrder.init coid eoid tp ot tt pr am s).is_local =
      (s == "LOCAL") := by
  refine ⟨rfl, ⟨⟨coid, eoid, tp, ot, tt, pr, am, s, eab, eaq, fa, fp⟩, ?_, rfl⟩,
    rfl, rfl, rfl, rfl⟩
  cases eoid <;> cases ot <;> cases tt <;> rfl

end KucoinOrder
